import Mathlib

/-!
Shallow embedding of the sudo authentication-cache subsystem
(`src-tauri/src/sudo.rs`).

Time is modelled in whole seconds by a `Nat` parameter `now`; a Rust
`Instant` stored in a token becomes its capture time `timestamp`, and
`timestamp.elapsed()` becomes `now - timestamp` (truncated subtraction,
matching the fact that a monotonic clock never runs backwards).
The `HashMap<u32, AuthToken>` of the cache becomes a list of tokens keyed
by their `user_id` field (the Rust code always inserts a token whose
`user_id` equals its map key); lookup is `List.find?`, insertion replaces
any previous token of the same user, `retain` is `List.filter`.

Every spawned subprocess (`Command::new("sudo") ... .output()` and the
piped verification child) is modelled by an oracle value of type
`SpawnOutcome` supplied to the function: either the I/O-level failure
(`Command::output` / `spawn` / `wait_with_output` returning `Err`) or the
completed process's exit status, stdout and stderr. A `fast_sudo` call can
spawn at most three distinct subprocesses (the cached non-interactive
attempt, the password verification, and the fresh execution), so its
environment is a record of three such outcomes.
-/

/-- `AuthToken` from the source: capture time plus the user it belongs to. -/
structure AuthToken where
  timestamp : Nat
  user_id : Nat
  deriving DecidableEq, Repr

/-- The cache contents: the `HashMap<u32, AuthToken>` as a keyed list. -/
abbrev Cache := List AuthToken

/-- `token.timestamp.elapsed() < Duration::from_secs(timeout_minutes * 60)`. -/
def tokenFresh (now timeout_minutes : Nat) (t : AuthToken) : Bool :=
  now - t.timestamp < timeout_minutes * 60

/-- `SudoCache::is_authenticated`: an entry for `user_id` exists and is fresh. -/
def is_authenticated (c : Cache) (now user_id timeout_minutes : Nat) : Bool :=
  match c.find? (fun t => t.user_id == user_id) with
  | some t => tokenFresh now timeout_minutes t
  | none => false

/-- `SudoCache::authenticate`: insert or overwrite the entry for `user_id`
with a freshly captured timestamp. -/
def authenticate (c : Cache) (now user_id : Nat) : Cache :=
  { timestamp := now, user_id := user_id } :: c.filter (fun t => t.user_id != user_id)

/-- `SudoCache::clear_expired`: retain exactly the fresh entries. -/
def clear_expired (c : Cache) (now timeout_minutes : Nat) : Cache :=
  c.filter (tokenFresh now timeout_minutes)

/-- `SudoCache::clear_all`. -/
def clear_all (_c : Cache) : Cache := []

/-- Exit status, captured stdout and captured stderr of a completed
subprocess. `statusSuccess` is Rust's `output.status.success()`. -/
structure ProcOutput where
  statusSuccess : Bool
  stdout : String
  stderr : String
  deriving DecidableEq, Repr

/-- Outcome of one subprocess invocation: either the spawn/read failed at
the I/O level (the `Err` of `Command::output`, `spawn`, `writeln!` or
`wait_with_output`, carrying its message), or the process completed. -/
inductive SpawnOutcome where
  | ioError (msg : String)
  | completed (out : ProcOutput)
  deriving DecidableEq, Repr

/-- `SudoRequest` from the source. -/
structure SudoRequest where
  command : String
  args : List String
  password : Option String
  deriving DecidableEq, Repr

/-- `SudoResponse` from the source. -/
structure SudoResponse where
  success : Bool
  output : String
  error : Option String
  cached : Bool
  needs_password : Bool
  deriving DecidableEq, Repr

/-- The stderr signature `verify_password` and `execute_sudo_command` key on:
`stderr.contains("no password entry")`. -/
def noPasswordEntrySig : String := "no password entry"

/-- Substring test on character lists, the semantics of Rust's
`str::contains` with a string pattern. -/
def charsContain (hay pat : List Char) : Bool :=
  pat.isPrefixOf hay ||
    match hay with
    | [] => false
    | _ :: t => charsContain t pat

/-- Substring test on strings. -/
def strContains (s pat : String) : Bool :=
  charsContain s.data pat.data

/-- Argument list handed to the spawned verification process in
`verify_password`: `.args(&["-S", "-v"])`, built from the credential.
The source never puts the credential itself into the list. -/
def verify_spawn_args (_password : String) : List String := ["-S", "-v"]

/-- What `verify_password` writes to the child's stdin:
`writeln!(stdin, "{}", password)`. -/
def verify_stdin_payload (password : String) : String := password ++ "\n"

/-- `verify_password`: spawn `sudo -S -v`, feed the credential on stdin, and
report `Ok(output.status.success())`; any spawn/write/wait failure is the
`Err` case. The oracle `outcome` is the spawned process's result. -/
def verify_password (_password : String) (outcome : SpawnOutcome) : Except String Bool :=
  match outcome with
  | .ioError e => .error e
  | .completed out => .ok out.statusSuccess

/-- The `cmd_args` vector built by `execute_sudo_command`: a leading `-n`
in cached (non-interactive) mode, then the command, then its arguments. -/
def build_cmd_args (command : String) (args : List String) (use_cached : Bool) : List String :=
  (if use_cached then ["-n"] else []) ++ command :: args

/-- The internal stale-session response `execute_sudo_command` produces when
a cached attempt fails with the no-valid-session stderr signature. -/
def staleSessionResponse : SudoResponse :=
  { success := false, output := "", error := some "Authentication required",
    cached := false, needs_password := true }

/-- `execute_sudo_command`: run `sudo` over `build_cmd_args`, then classify.
`outcome` is the oracle for the spawned process. Zero exit: success with
stdout, `cached` mirroring `use_cached`. Non-zero exit with `use_cached` and
the no-valid-session signature in stderr: the internal stale-session
response. Any other non-zero exit: a genuine failure carrying stderr. -/
def execute_sudo_command (_command : String) (_args : List String) (use_cached : Bool)
    (outcome : SpawnOutcome) : Except String SudoResponse :=
  match outcome with
  | .ioError e => .error ("Failed to execute command: " ++ e)
  | .completed out =>
      if out.statusSuccess then
        .ok { success := true, output := out.stdout, error := none,
              cached := use_cached, needs_password := false }
      else if use_cached && strContains out.stderr noPasswordEntrySig then
        .ok staleSessionResponse
      else
        .ok { success := false, output := out.stdout, error := some out.stderr,
              cached := use_cached, needs_password := false }

/-- The three subprocess outcomes one `fast_sudo` call can observe:
the cached (`-n`) execution attempt, the password verification child, and
the fresh (post-verification) execution. -/
structure Env where
  cachedExec : SpawnOutcome
  verify : SpawnOutcome
  freshExec : SpawnOutcome
  deriving DecidableEq, Repr

/-- The tail of `fast_sudo` reached whenever `needs_auth` is true (no fresh
cached trust, or the cached attempt reported `needs_password`): request a
password if none was supplied, otherwise verify it and, on acceptance,
record a token and execute freshly with `use_cached = false`. -/
def fast_sudo_auth_phase (request : SudoRequest) (env : Env) (now user_id : Nat)
    (cache : Cache) : Except String SudoResponse × Cache :=
  match request.password with
  | none =>
      (.ok { success := false, output := "", error := some "Password required",
             cached := false, needs_password := true }, cache)
  | some pw =>
      match verify_password pw env.verify with
      | .ok true =>
          (execute_sudo_command request.command request.args false env.freshExec,
           authenticate cache now user_id)
      | .ok false =>
          (.ok { success := false, output := "", error := some "Invalid password",
                 cached := false, needs_password := true }, cache)
      | .error e =>
          (.ok { success := false, output := "",
                 error := some ("Authentication error: " ++ e),
                 cached := false, needs_password := false }, cache)

/-- `fast_sudo`: sweep expired tokens, try the cached path when the current
user is freshly authenticated, and otherwise (or when the cached attempt
reports `needs_password`) fall through to the password phase. Returns the
response together with the resulting cache contents. -/
def fast_sudo (request : SudoRequest) (env : Env) (now user_id : Nat)
    (cache : Cache) : Except String SudoResponse × Cache :=
  let timeout_minutes := 15
  let cache1 := clear_expired cache now timeout_minutes
  if is_authenticated cache1 now user_id timeout_minutes then
    match execute_sudo_command request.command request.args true env.cachedExec with
    | .error e => (.error e, cache1)
    | .ok resp =>
        if resp.success then (.ok resp, cache1)
        else if resp.needs_password then fast_sudo_auth_phase request env now user_id cache1
        else (.ok resp, cache1)
  else
    fast_sudo_auth_phase request env now user_id cache1

/-- `direct_privilege_escalation`: run `sudo command args` directly; the
response carries the exit status, stdout, and stderr only when nonempty. -/
def direct_privilege_escalation (_command : String) (_args : List String)
    (outcome : SpawnOutcome) : Except String SudoResponse :=
  match outcome with
  | .ioError e => .error ("Failed to execute command: " ++ e)
  | .completed out =>
      .ok { success := out.statusSuccess, output := out.stdout,
            error := if out.stderr.isEmpty then none else some out.stderr,
            cached := false, needs_password := false }

/-! ## Helper lemmas -/

theorem strContains_authRequired_sig :
    strContains "Authentication required" noPasswordEntrySig = false := by decide

theorem stderr_ne_authRequired {s : String}
    (h : strContains s noPasswordEntrySig = true) : s ≠ "Authentication required" := by
  intro he
  rw [he, strContains_authRequired_sig] at h
  exact Bool.false_ne_true h

/-! ## Theorems for the claims -/

/-- C7: for every cache state and every ttl, `clear_expired` removes exactly
the entries whose age is at least the ttl window, keeps every other entry
(as a sublist, so kept entries are unchanged and in order), and is
idempotent: sweeping twice at the same instant equals sweeping once. -/
theorem clear_expired_exact_and_idempotent (c : Cache) (now timeout_minutes : Nat) :
    (∀ t : AuthToken, t ∈ clear_expired c now timeout_minutes ↔
        t ∈ c ∧ now - t.timestamp < timeout_minutes * 60) ∧
    (clear_expired c now timeout_minutes).Sublist c ∧
    clear_expired (clear_expired c now timeout_minutes) now timeout_minutes =
      clear_expired c now timeout_minutes := by
  refine ⟨fun t => ?_, List.filter_sublist c, ?_⟩
  · simp [clear_expired, List.mem_filter, tokenFresh]
  · simp [clear_expired, List.filter_filter]

/-- C2: classification of `execute_sudo_command` on a completed subprocess.
Zero exit: success, stdout surfaced, `cached` mirrors `use_cached`.
Non-zero exit in cached mode with the no-valid-session stderr signature:
`needs_password = true`, `success = false`, and the stderr text is not the
surfaced error. Any other non-zero exit: genuine failure with
`error = stderr` and `needs_password = false`. -/
theorem execute_sudo_command_classification
    (command : String) (args : List String) (use_cached : Bool) (out : ProcOutput) :
    (out.statusSuccess = true →
        execute_sudo_command command args use_cached (.completed out) =
          .ok { success := true, output := out.stdout, error := none,
                cached := use_cached, needs_password := false }) ∧
    (out.statusSuccess = false → use_cached = true →
        strContains out.stderr noPasswordEntrySig = true →
        execute_sudo_command command args use_cached (.completed out) =
            .ok staleSessionResponse ∧
          staleSessionResponse.needs_password = true ∧
          staleSessionResponse.success = false ∧
          staleSessionResponse.error ≠ some out.stderr) ∧
    (out.statusSuccess = false →
        (use_cached && strContains out.stderr noPasswordEntrySig) = false →
        execute_sudo_command command args use_cached (.completed out) =
          .ok { success := false, output := out.stdout, error := some out.stderr,
                cached := use_cached, needs_password := false }) := by
  refine ⟨fun hs => ?_, fun hs hu hc => ⟨?_, rfl, rfl, ?_⟩, fun hs hn => ?_⟩
  · simp [execute_sudo_command, hs]
  · simp [execute_sudo_command, hs, hu, hc]
  · intro he
    have : out.stderr = "Authentication required" := by
      simpa [staleSessionResponse] using he.symm
    exact stderr_ne_authRequired hc this
  · simp [execute_sudo_command, hs, hn]

theorem execute_sudo_command_classification_witness :
    (execute_sudo_command "systemctl" ["restart", "nginx"] true
        (.completed { statusSuccess := true, stdout := "ok", stderr := "" }) =
      .ok { success := true, output := "ok", error := none,
            cached := true, needs_password := false }) ∧
    (execute_sudo_command "systemctl" ["restart", "nginx"] true
        (.completed { statusSuccess := false, stdout := "",
                      stderr := "sudo: no password entry for user" }) =
        .ok staleSessionResponse ∧
      staleSessionResponse.needs_password = true ∧
      staleSessionResponse.success = false ∧
      staleSessionResponse.error ≠ some "sudo: no password entry for user") ∧
    (execute_sudo_command "systemctl" ["restart", "nginx"] false
        (.completed { statusSuccess := false, stdout := "", stderr := "boom" }) =
      .ok { success := false, output := "", error := some "boom",
            cached := false, needs_password := false }) :=
  ⟨(execute_sudo_command_classification "systemctl" ["restart", "nginx"] true
      { statusSuccess := true, stdout := "ok", stderr := "" }).1 rfl,
   (execute_sudo_command_classification "systemctl" ["restart", "nginx"] true
      { statusSuccess := false, stdout := "",
        stderr := "sudo: no password entry for user" }).2.1 rfl rfl (by decide),
   (execute_sudo_command_classification "systemctl" ["restart", "nginx"] false
      { statusSuccess := false, stdout := "", stderr := "boom" }).2.2 rfl rfl⟩

/-- C9 (amended): `direct_privilege_escalation` mirrors the exit status into
`success`, surfaces stdout, sets `cached = false` and `needs_password =
false`, but its `error` field is the captured stderr exactly when stderr is
nonempty — on zero and non-zero exits alike — and absent when stderr is
empty. -/
theorem direct_privilege_escalation_contract
    (command : String) (args : List String) (out : ProcOutput) :
    (out.stderr = "" →
        direct_privilege_escalation command args (.completed out) =
          .ok { success := out.statusSuccess, output := out.stdout, error := none,
                cached := false, needs_password := false }) ∧
    (out.stderr ≠ "" →
        direct_privilege_escalation command args (.completed out) =
          .ok { success := out.statusSuccess, output := out.stdout,
                error := some out.stderr,
                cached := false, needs_password := false }) := by
  constructor
  · intro h; simp [direct_privilege_escalation, String.isEmpty_iff, h]
  · intro h; simp [direct_privilege_escalation, String.isEmpty_iff, h]

theorem direct_privilege_escalation_contract_witness :
    (direct_privilege_escalation "fdisk" ["-l"]
        (.completed { statusSuccess := true, stdout := "disk", stderr := "" }) =
      .ok { success := true, output := "disk", error := none,
            cached := false, needs_password := false }) ∧
    (direct_privilege_escalation "fdisk" ["-l"]
        (.completed { statusSuccess := false, stdout := "", stderr := "denied" }) =
      .ok { success := false, output := "", error := some "denied",
            cached := false, needs_password := false }) :=
  ⟨(direct_privilege_escalation_contract "fdisk" ["-l"]
      { statusSuccess := true, stdout := "disk", stderr := "" }).1 rfl,
   (direct_privilege_escalation_contract "fdisk" ["-l"]
      { statusSuccess := false, stdout := "", stderr := "denied" }).2 (by decide)⟩

/-- C9 counterexample: the claim's §4.3 contract fails on the code. On a
zero exit with nonempty stderr the response's `error` is the stderr, not
absent; on a non-zero exit with empty stderr the response's `error` is
absent, while the §4.3 executor surfaces `some ""`. -/
theorem direct_privilege_escalation_counterexample :
    direct_privilege_escalation "mount" ["/dev/sda1"]
        (.completed { statusSuccess := true, stdout := "mounted",
                      stderr := "mount: warning" }) =
      .ok { success := true, output := "mounted", error := some "mount: warning",
            cached := false, needs_password := false } ∧
    some "mount: warning" ≠ (none : Option String) ∧
    direct_privilege_escalation "mount" ["/dev/sda1"]
        (.completed { statusSuccess := false, stdout := "", stderr := "" }) =
      .ok { success := false, output := "", error := none,
            cached := false, needs_password := false } ∧
    execute_sudo_command "mount" ["/dev/sda1"] false
        (.completed { statusSuccess := false, stdout := "", stderr := "" }) =
      .ok { success := false, output := "", error := some "",
            cached := false, needs_password := false } :=
  ⟨rfl, by simp, rfl, rfl⟩

theorem is_authenticated_clear_false (c : Cache) (now uid m : Nat)
    (h : ∀ t ∈ c, t.user_id = uid → tokenFresh now m t = false) :
    is_authenticated (clear_expired c now m) now uid m = false := by
  have hnone : (clear_expired c now m).find? (fun t => t.user_id == uid) = none := by
    rw [List.find?_eq_none]
    intro t hmem hp
    have hm := List.mem_filter.mp hmem
    have hfalse := h t hm.1 (by simpa using hp)
    rw [hm.2] at hfalse
    exact Bool.noConfusion hfalse
  simp [is_authenticated, hnone]

theorem is_authenticated_clear_true (c : Cache) (now uid m : Nat)
    (h : is_authenticated c now uid m = true) :
    is_authenticated (clear_expired c now m) now uid m = true := by
  induction c with
  | nil => exact h
  | cons t rest ih =>
      by_cases hu : (t.user_id == uid) = true
      · have hfresh : tokenFresh now m t = true := by
          simpa [is_authenticated, List.find?_cons, hu] using h
        simp [clear_expired, List.filter_cons, hfresh, is_authenticated,
              List.find?_cons, hu]
      · have hrest : is_authenticated rest now uid m = true := by
          simpa [is_authenticated, List.find?_cons, hu] using h
        have := ih hrest
        by_cases hf : tokenFresh now m t = true
        · simpa [clear_expired, List.filter_cons, hf, is_authenticated,
                 List.find?_cons, hu] using this
        · simpa [clear_expired, List.filter_cons, hf, is_authenticated] using this

theorem fast_sudo_reaches_auth (req : SudoRequest) (env : Env) (now user_id : Nat)
    (cache : Cache) (co : ProcOutput)
    (hcase : (∀ t ∈ cache, t.user_id = user_id → tokenFresh now 15 t = false) ∨
        (env.cachedExec = SpawnOutcome.completed co ∧ co.statusSuccess = false ∧
         strContains co.stderr noPasswordEntrySig = true)) :
    fast_sudo req env now user_id cache =
      fast_sudo_auth_phase req env now user_id (clear_expired cache now 15) := by
  rcases hcase with h | ⟨hce, hcf, hcs⟩
  · have ha := is_authenticated_clear_false cache now user_id 15 h
    simp [fast_sudo, ha]
  · by_cases ha : is_authenticated (clear_expired cache now 15) now user_id 15 = true
    · simp [fast_sudo, ha, hce, execute_sudo_command, hcf, hcs, staleSessionResponse]
    · simp [fast_sudo, ha]

/-- C3: whenever no fresh trust is available — the current user has no fresh
cache entry, or the cached non-interactive attempt failed with the
stale-session signature — and no password was supplied, `fast_sudo` returns
`success = false`, `needs_password = true`, error `"Password required"`. -/
theorem fast_sudo_password_required (req : SudoRequest) (env : Env)
    (now user_id : Nat) (cache : Cache) (co : ProcOutput)
    (hpw : req.password = none)
    (hcase : (∀ t ∈ cache, t.user_id = user_id → tokenFresh now 15 t = false) ∨
        (env.cachedExec = SpawnOutcome.completed co ∧ co.statusSuccess = false ∧
         strContains co.stderr noPasswordEntrySig = true)) :
    (fast_sudo req env now user_id cache).1 =
      Except.ok { success := false, output := "", error := some "Password required",
                  cached := false, needs_password := true } := by
  rw [fast_sudo_reaches_auth req env now user_id cache co hcase]
  simp [fast_sudo_auth_phase, hpw]

theorem fast_sudo_password_required_witness :
    (fast_sudo { command := "ls", args := ["/root"], password := none }
        { cachedExec := .completed { statusSuccess := false, stdout := "", stderr := "" },
          verify := .completed { statusSuccess := true, stdout := "", stderr := "" },
          freshExec := .completed { statusSuccess := true, stdout := "", stderr := "" } }
        1000 501 []).1 =
      Except.ok { success := false, output := "", error := some "Password required",
                  cached := false, needs_password := true } ∧
    (fast_sudo { command := "ls", args := ["/root"], password := none }
        { cachedExec := .completed { statusSuccess := false, stdout := "",
                                     stderr := "sudo: no password entry found" },
          verify := .completed { statusSuccess := true, stdout := "", stderr := "" },
          freshExec := .completed { statusSuccess := true, stdout := "", stderr := "" } }
        1000 501 [{ timestamp := 900, user_id := 501 }]).1 =
      Except.ok { success := false, output := "", error := some "Password required",
                  cached := false, needs_password := true } :=
  ⟨fast_sudo_password_required _ _ _ _ _
      { statusSuccess := false, stdout := "", stderr := "" } rfl (Or.inl (by simp)),
   fast_sudo_password_required _ _ _ _ _
      { statusSuccess := false, stdout := "", stderr := "sudo: no password entry found" }
      rfl (Or.inr ⟨rfl, rfl, by decide⟩)⟩

/-- C4: whenever the verifier rejects the supplied password, `fast_sudo`
returns `success = false`, `needs_password = true`, error
`"Invalid password"`; the resulting cache is exactly the expiry-swept input
cache (nothing is recorded on this path), so in particular no entry is
created for the current user. -/
theorem fast_sudo_invalid_password (req : SudoRequest) (env : Env)
    (now user_id : Nat) (cache : Cache) (pw : String) (co : ProcOutput)
    (hpw : req.password = some pw)
    (hrej : verify_password pw env.verify = Except.ok false)
    (hcase : (∀ t ∈ cache, t.user_id = user_id → tokenFresh now 15 t = false) ∨
        (env.cachedExec = SpawnOutcome.completed co ∧ co.statusSuccess = false ∧
         strContains co.stderr noPasswordEntrySig = true)) :
    (fast_sudo req env now user_id cache).1 =
      Except.ok { success := false, output := "", error := some "Invalid password",
                  cached := false, needs_password := true } ∧
    (fast_sudo req env now user_id cache).2 = clear_expired cache now 15 ∧
    ((∀ t ∈ cache, t.user_id ≠ user_id) →
      ∀ t ∈ (fast_sudo req env now user_id cache).2, t.user_id ≠ user_id) := by
  rw [fast_sudo_reaches_auth req env now user_id cache co hcase]
  refine ⟨?_, ?_, ?_⟩
  · simp [fast_sudo_auth_phase, hpw, hrej]
  · simp [fast_sudo_auth_phase, hpw, hrej]
  · intro hno t ht
    simp [fast_sudo_auth_phase, hpw, hrej] at ht
    exact hno t (List.mem_filter.mp ht).1

theorem fast_sudo_invalid_password_witness :
    (fast_sudo { command := "reboot", args := [], password := some "wrong" }
        { cachedExec := .completed { statusSuccess := false, stdout := "", stderr := "" },
          verify := .completed { statusSuccess := false, stdout := "", stderr := "" },
          freshExec := .completed { statusSuccess := true, stdout := "", stderr := "" } }
        1000 501 []).1 =
      Except.ok { success := false, output := "", error := some "Invalid password",
                  cached := false, needs_password := true } ∧
    (fast_sudo { command := "reboot", args := [], password := some "wrong" }
        { cachedExec := .completed { statusSuccess := false, stdout := "", stderr := "" },
          verify := .completed { statusSuccess := false, stdout := "", stderr := "" },
          freshExec := .completed { statusSuccess := true, stdout := "", stderr := "" } }
        1000 501 []).2 = clear_expired [] 1000 15 ∧
    ((∀ t ∈ ([] : Cache), t.user_id ≠ 501) →
      ∀ t ∈ (fast_sudo { command := "reboot", args := [], password := some "wrong" }
        { cachedExec := .completed { statusSuccess := false, stdout := "", stderr := "" },
          verify := .completed { statusSuccess := false, stdout := "", stderr := "" },
          freshExec := .completed { statusSuccess := true, stdout := "", stderr := "" } }
        1000 501 []).2, t.user_id ≠ 501) :=
  fast_sudo_invalid_password _ _ _ _ _ "wrong"
    { statusSuccess := false, stdout := "", stderr := "" }
    rfl rfl (Or.inl (by simp))

/-- C5: when the current user holds a fresh cache entry and the cached
non-interactive attempt fails genuinely (non-zero exit without the
stale-session signature), `fast_sudo` returns exactly that failure —
`needs_password = false`, `error` = the attempt's stderr, `cached = true` —
and the swept cache, for every supplied password and every outcome of the
verification and fresh-execution subprocesses: since `env.verify`,
`env.freshExec` and `request.password` are arbitrary and absent from the
conclusion, neither credential verification nor a fresh execution can have
influenced the result. -/
theorem fast_sudo_genuine_failure_terminal (req : SudoRequest) (env : Env)
    (now user_id : Nat) (cache : Cache) (co : ProcOutput)
    (hauth : is_authenticated cache now user_id 15 = true)
    (hce : env.cachedExec = SpawnOutcome.completed co)
    (hfail : co.statusSuccess = false)
    (hgenuine : strContains co.stderr noPasswordEntrySig = false) :
    fast_sudo req env now user_id cache =
      (Except.ok { success := false, output := co.stdout, error := some co.stderr,
                   cached := true, needs_password := false },
       clear_expired cache now 15) := by
  have ha := is_authenticated_clear_true cache now user_id 15 hauth
  simp [fast_sudo, ha, hce, execute_sudo_command, hfail, hgenuine]

theorem fast_sudo_genuine_failure_terminal_witness :
    is_authenticated [{ timestamp := 950, user_id := 501 }] 1000 501 15 = true ∧
    strContains "cat: /etc/missing: No such file" noPasswordEntrySig = false ∧
    fast_sudo { command := "cat", args := ["/etc/missing"], password := some "hunter2" }
        { cachedExec := .completed { statusSuccess := false, stdout := "",
                                     stderr := "cat: /etc/missing: No such file" },
          verify := .completed { statusSuccess := true, stdout := "", stderr := "" },
          freshExec := .completed { statusSuccess := true, stdout := "", stderr := "" } }
        1000 501 [{ timestamp := 950, user_id := 501 }] =
      (Except.ok { success := false, output := "",
                   error := some "cat: /etc/missing: No such file",
                   cached := true, needs_password := false },
       clear_expired [{ timestamp := 950, user_id := 501 }] 1000 15) :=
  ⟨by decide, by decide,
   fast_sudo_genuine_failure_terminal _ _ _ _ _
     { statusSuccess := false, stdout := "", stderr := "cat: /etc/missing: No such file" }
     (by decide) rfl rfl (by decide)⟩

/-- C6: `verify_password` answers `Ok true` exactly when the verification
child exits successfully, `Ok false` when it rejects the credential, and an
error exactly on an I/O-level failure of spawning or reading it; when that
I/O error happens, `fast_sudo` returns `success = false`,
`needs_password = false` and an authentication-error message — a response
distinct from the rejected-credential response. -/
theorem verify_password_contract_io_error (req : SudoRequest) (env : Env)
    (now user_id : Nat) (cache : Cache) (pw e : String) (co : ProcOutput)
    (hpw : req.password = some pw)
    (hio : env.verify = SpawnOutcome.ioError e)
    (hcase : (∀ t ∈ cache, t.user_id = user_id → tokenFresh now 15 t = false) ∨
        (env.cachedExec = SpawnOutcome.completed co ∧ co.statusSuccess = false ∧
         strContains co.stderr noPasswordEntrySig = true)) :
    (∀ (p : String) (out : ProcOutput),
        verify_password p (SpawnOutcome.completed out) = Except.ok out.statusSuccess) ∧
    (∀ (p msg : String),
        verify_password p (SpawnOutcome.ioError msg) = Except.error msg) ∧
    (fast_sudo req env now user_id cache).1 =
      Except.ok { success := false, output := "",
                  error := some ("Authentication error: " ++ e),
                  cached := false, needs_password := false } ∧
    ({ success := false, output := "", error := some ("Authentication error: " ++ e),
       cached := false, needs_password := false } : SudoResponse) ≠
      { success := false, output := "", error := some "Invalid password",
        cached := false, needs_password := true } := by
  refine ⟨fun p out => rfl, fun p msg => rfl, ?_, by simp⟩
  rw [fast_sudo_reaches_auth req env now user_id cache co hcase]
  simp [fast_sudo_auth_phase, hpw, verify_password, hio]

theorem verify_password_contract_io_error_witness :
    (∀ (p : String) (out : ProcOutput),
        verify_password p (SpawnOutcome.completed out) = Except.ok out.statusSuccess) ∧
    (∀ (p msg : String),
        verify_password p (SpawnOutcome.ioError msg) = Except.error msg) ∧
    (fast_sudo { command := "ls", args := [], password := some "hunter2" }
        { cachedExec := .completed { statusSuccess := false, stdout := "", stderr := "" },
          verify := .ioError "No such file or directory (os error 2)",
          freshExec := .completed { statusSuccess := true, stdout := "", stderr := "" } }
        1000 501 []).1 =
      Except.ok { success := false, output := "",
                  error := some ("Authentication error: " ++
                    "No such file or directory (os error 2)"),
                  cached := false, needs_password := false } ∧
    ({ success := false, output := "",
       error := some ("Authentication error: " ++ "No such file or directory (os error 2)"),
       cached := false, needs_password := false } : SudoResponse) ≠
      { success := false, output := "", error := some "Invalid password",
        cached := false, needs_password := true } :=
  verify_password_contract_io_error _ _ _ _ _ "hunter2"
    "No such file or directory (os error 2)"
    { statusSuccess := false, stdout := "", stderr := "" }
    rfl rfl (Or.inl (by simp))

/-- C8: the argument list of the spawned verification process is the fixed
list `["-S", "-v"]`, identical for every credential value — the credential
travels only in the child's stdin payload — and the entire observable
result of `fast_sudo` (response and cache alike) is identical for any two
credential values under the same subprocess outcomes, so no response field,
`output` and `error` included, can incorporate the credential text. -/
theorem credential_noninterference (command : String) (args : List String)
    (p q : String) (env : Env) (now user_id : Nat) (cache : Cache) :
    verify_spawn_args p = verify_spawn_args q ∧
    verify_spawn_args p = ["-S", "-v"] ∧
    verify_stdin_payload p = p ++ "\n" ∧
    fast_sudo { command := command, args := args, password := some p } env now user_id cache =
      fast_sudo { command := command, args := args, password := some q } env now user_id cache :=
  ⟨rfl, rfl, rfl, rfl⟩

/-- C1: scenario B. With no cache entry for the current user, an accepted
password and a succeeding underlying command, `fast_sudo` answers
`success = true, cached = false`, records a token stamped `now` for the
user, and a second call within the TTL with no password — whose cached
non-interactive attempt succeeds — answers `success = true, cached = true,
needs_password = false` without consulting the password phase. -/
theorem fast_sudo_fresh_auth_then_cached
    (req req2 : SudoRequest) (env env2 : Env) (now now2 user_id : Nat)
    (cache : Cache) (pw : String) (fo co : ProcOutput)
    (hpw : req.password = some pw)
    (hnoent : ∀ t ∈ cache, t.user_id ≠ user_id)
    (hverify : verify_password pw env.verify = Except.ok true)
    (hfe : env.freshExec = SpawnOutcome.completed fo)
    (hfs : fo.statusSuccess = true)
    (_hpw2 : req2.password = none)
    (httl : now2 - now < 15 * 60)
    (hce : env2.cachedExec = SpawnOutcome.completed co)
    (hcs : co.statusSuccess = true) :
    (fast_sudo req env now user_id cache).1 =
      Except.ok { success := true, output := fo.stdout, error := none,
                  cached := false, needs_password := false } ∧
    ((fast_sudo req env now user_id cache).2).find? (fun t => t.user_id == user_id) =
      some { timestamp := now, user_id := user_id } ∧
    (fast_sudo req2 env2 now2 user_id (fast_sudo req env now user_id cache).2).1 =
      Except.ok { success := true, output := co.stdout, error := none,
                  cached := true, needs_password := false } := by
  have ha : is_authenticated (clear_expired cache now 15) now user_id 15 = false :=
    is_authenticated_clear_false cache now user_id 15
      (fun t ht hu => absurd hu (hnoent t ht))
  have key1 : fast_sudo req env now user_id cache =
      (Except.ok { success := true, output := fo.stdout, error := none,
                   cached := false, needs_password := false },
       authenticate (clear_expired cache now 15) now user_id) := by
    simp [fast_sudo, ha, fast_sudo_auth_phase, hpw, hverify,
          execute_sudo_command, hfe, hfs]
  have hfresh2 : tokenFresh now2 15 { timestamp := now, user_id := user_id } = true := by
    simp [tokenFresh]
    omega
  refine ⟨by rw [key1], ?_, ?_⟩
  · rw [key1]
    simp [authenticate, List.find?_cons]
  · rw [key1]
    have ha2 : is_authenticated
        (clear_expired (authenticate (clear_expired cache now 15) now user_id) now2 15)
        now2 user_id 15 = true := by
      simp [authenticate, clear_expired, List.filter_cons, hfresh2,
            is_authenticated, List.find?_cons]
    simp [fast_sudo, ha2, execute_sudo_command, hce, hcs]

theorem fast_sudo_fresh_auth_then_cached_witness :
    (∀ t ∈ ([] : Cache), t.user_id ≠ 1000) ∧ (500 - 100 < 15 * 60) ∧
    ((fast_sudo { command := "apt", args := ["update"], password := some "s3cret" }
        { cachedExec := .completed { statusSuccess := false, stdout := "", stderr := "" },
          verify := .completed { statusSuccess := true, stdout := "", stderr := "" },
          freshExec := .completed { statusSuccess := true, stdout := "done", stderr := "" } }
        100 1000 []).1 =
      Except.ok { success := true, output := "done", error := none,
                  cached := false, needs_password := false } ∧
    ((fast_sudo { command := "apt", args := ["update"], password := some "s3cret" }
        { cachedExec := .completed { statusSuccess := false, stdout := "", stderr := "" },
          verify := .completed { statusSuccess := true, stdout := "", stderr := "" },
          freshExec := .completed { statusSuccess := true, stdout := "done", stderr := "" } }
        100 1000 []).2).find? (fun t => t.user_id == 1000) =
      some { timestamp := 100, user_id := 1000 } ∧
    (fast_sudo { command := "apt", args := ["upgrade"], password := none }
        { cachedExec := .completed { statusSuccess := true, stdout := "ok", stderr := "" },
          verify := .completed { statusSuccess := false, stdout := "", stderr := "" },
          freshExec := .completed { statusSuccess := false, stdout := "", stderr := "" } }
        500 1000
        (fast_sudo { command := "apt", args := ["update"], password := some "s3cret" }
          { cachedExec := .completed { statusSuccess := false, stdout := "", stderr := "" },
            verify := .completed { statusSuccess := true, stdout := "", stderr := "" },
            freshExec := .completed { statusSuccess := true, stdout := "done", stderr := "" } }
          100 1000 []).2).1 =
      Except.ok { success := true, output := "ok", error := none,
                  cached := true, needs_password := false }) :=
  ⟨by simp, by decide,
   fast_sudo_fresh_auth_then_cached _ _ _ _ 100 500 1000 [] "s3cret"
     { statusSuccess := true, stdout := "done", stderr := "" }
     { statusSuccess := true, stdout := "ok", stderr := "" }
     rfl (by simp) rfl rfl rfl rfl (by decide) rfl rfl⟩

theorem execute_resp_shape (command : String) (args : List String) (use_cached : Bool)
    (outcome : SpawnOutcome) (r : SudoResponse)
    (h : execute_sudo_command command args use_cached outcome = Except.ok r) :
    (r.needs_password = true → r = staleSessionResponse ∧ use_cached = true) ∧
    (r.success = true → r.needs_password = false) := by
  cases outcome with
  | ioError e => simp [execute_sudo_command] at h
  | completed out =>
      by_cases hs : out.statusSuccess = true
      · simp [execute_sudo_command, hs] at h
        subst h
        simp
      · by_cases hc : (use_cached && strContains out.stderr noPasswordEntrySig) = true
        · have hc2 := hc
          simp only [Bool.and_eq_true] at hc2
          simp [execute_sudo_command, hs, hc] at h
          subst h
          simp [staleSessionResponse, hc2.1]
        · simp [execute_sudo_command, hs, hc] at h
          subst h
          simp

theorem fast_sudo_auth_phase_resp (req : SudoRequest) (env : Env) (now user_id : Nat)
    (cache : Cache) (resp : SudoResponse)
    (h : (fast_sudo_auth_phase req env now user_id cache).1 = Except.ok resp) :
    (resp.needs_password = true →
        resp.success = false ∧ resp.output = "" ∧ resp.cached = false) ∧
    resp ≠ staleSessionResponse := by
  cases hp : req.password with
  | none =>
      simp [fast_sudo_auth_phase, hp] at h
      subst h
      exact ⟨fun _ => ⟨rfl, rfl, rfl⟩, by simp [staleSessionResponse]⟩
  | some pw =>
      cases hv : verify_password pw env.verify with
      | error e =>
          simp [fast_sudo_auth_phase, hp, hv] at h
          subst h
          exact ⟨fun hc => Bool.noConfusion hc, by simp [staleSessionResponse]⟩
      | ok b =>
          cases b with
          | false =>
              simp [fast_sudo_auth_phase, hp, hv] at h
              subst h
              exact ⟨fun _ => ⟨rfl, rfl, rfl⟩, by simp [staleSessionResponse]⟩
          | true =>
              simp [fast_sudo_auth_phase, hp, hv] at h
              have hnp := (execute_resp_shape req.command req.args false env.freshExec resp h).1
              constructor
              · intro hc
                exact absurd ((hnp hc).2) (by simp)
              · intro he
                have : resp.needs_password = true := by simp [he, staleSessionResponse]
                exact absurd ((hnp this).2) (by simp)

/-- C10: every `Ok` response out of `fast_sudo` with `needs_password = true`
also has `success = false`, empty `output` and `cached = false`; and the
executor's internal stale-session response (error `"Authentication
required"`) is never what `fast_sudo` returns — the orchestrator intercepts
it and the final execution runs with `use_cached = false`, which cannot
produce it. -/
theorem fast_sudo_needs_password_invariant
    (req : SudoRequest) (env : Env) (now user_id : Nat) (cache : Cache)
    (resp : SudoResponse)
    (h : (fast_sudo req env now user_id cache).1 = Except.ok resp) :
    (resp.needs_password = true →
        resp.success = false ∧ resp.output = "" ∧ resp.cached = false) ∧
    resp ≠ staleSessionResponse := by
  unfold fast_sudo at h
  by_cases ha : is_authenticated (clear_expired cache now 15) now user_id 15 = true
  · rw [if_pos ha] at h
    cases he : execute_sudo_command req.command req.args true env.cachedExec with
    | error e =>
        rw [he] at h
        simp at h
    | ok r =>
        rw [he] at h
        by_cases hsucc : r.success = true
        · simp [hsucc] at h
          subst h
          have hnp := (execute_resp_shape req.command req.args true env.cachedExec r he).2 hsucc
          constructor
          · intro hc
            exact absurd hc (by simp [hnp])
          · intro hst
            rw [hst] at hsucc
            simp [staleSessionResponse] at hsucc
        · by_cases hnp : r.needs_password = true
          · simp [hsucc, hnp] at h
            exact fast_sudo_auth_phase_resp req env now user_id
              (clear_expired cache now 15) resp h
          · simp [hsucc, hnp] at h
            subst h
            constructor
            · intro hc
              exact absurd hc hnp
            · intro hst
              rw [hst] at hnp
              exact hnp (by simp [staleSessionResponse])
  · rw [if_neg ha] at h
    exact fast_sudo_auth_phase_resp req env now user_id
      (clear_expired cache now 15) resp h

theorem fast_sudo_needs_password_invariant_witness :
    ((fast_sudo { command := "ls", args := [], password := none }
        { cachedExec := .completed { statusSuccess := false, stdout := "", stderr := "" },
          verify := .completed { statusSuccess := true, stdout := "", stderr := "" },
          freshExec := .completed { statusSuccess := true, stdout := "", stderr := "" } }
        1000 501 []).1 =
      Except.ok { success := false, output := "", error := some "Password required",
                  cached := false, needs_password := true }) ∧
    ((({ success := false, output := "", error := some "Password required",
         cached := false, needs_password := true } : SudoResponse).needs_password = true →
        ({ success := false, output := "", error := some "Password required",
           cached := false, needs_password := true } : SudoResponse).success = false ∧
        ({ success := false, output := "", error := some "Password required",
           cached := false, needs_password := true } : SudoResponse).output = "" ∧
        ({ success := false, output := "", error := some "Password required",
           cached := false, needs_password := true } : SudoResponse).cached = false) ∧
      ({ success := false, output := "", error := some "Password required",
         cached := false, needs_password := true } : SudoResponse) ≠ staleSessionResponse) :=
  ⟨rfl,
   fast_sudo_needs_password_invariant
     { command := "ls", args := [], password := none }
     { cachedExec := .completed { statusSuccess := false, stdout := "", stderr := "" },
       verify := .completed { statusSuccess := true, stdout := "", stderr := "" },
       freshExec := .completed { statusSuccess := true, stdout := "", stderr := "" } }
     1000 501 []
     { success := false, output := "", error := some "Password required",
       cached := false, needs_password := true }
     rfl⟩
